import Mathlib

/-!
Shallow embedding of the `spicer` surface-point / illumination-geometry engine
(`src/spicer/spicer.py`) and verification of the frozen specification claims.

Conventions of the embedding:
* machine floats are modelled as real numbers;
* the SPICE toolkit (`spiceypy`) is the external Ephemeris Provider: every
  `spice.*` call becomes a field of an abstract `Provider` structure that is
  passed to each operation;
* Python exceptions become `Except` values; a stateful operation that can
  raise returns `Except (PyErr × Spicer) Spicer`, the error carrying the
  state as it was at the moment of the raise (so non-atomic partial updates
  are observable);
* an attribute that is only conditionally assigned (`self.spoint`) is an
  `Option`, `none` meaning "attribute not present" (access raises
  `AttributeError`).
-/

noncomputable section

open scoped Matrix

/-- 3-vectors, as produced and consumed by the SPICE vector routines. -/
abbrev V3 := Fin 3 → ℝ

/-- `np.radians` / astropy `(x * u.deg).to(u.radian)`: degrees to radians. -/
def deg2rad (x : ℝ) : ℝ := x * Real.pi / 180

/-- `np.degrees` / astropy `.to(u.deg)`: radians to degrees. -/
def rad2deg (x : ℝ) : ℝ := x * 180 / Real.pi

/-- `np.linalg.norm` of a 3-vector. -/
def norm3 (v : V3) : ℝ := Real.sqrt (v 0 ^ 2 + v 1 ^ 2 + v 2 ^ 2)

/-- `d /= np.linalg.norm(d)`: the normalized direction vector. -/
def normalize3 (v : V3) : V3 := fun i => v i / norm3 v

/-- `math.tau` (= 2π), imported at the top of `spicer.py`. -/
def mathTau : ℝ := 2 * Real.pi

/-- `astropy.constants.L_sun` in W. -/
def L_sun : ℝ := 3.828e26

/-- The Python exception kinds raised by the code paths of the engine.
`unknownBody` is modelled from the spec: the repository's `exceptions`
module (imported as `from .exceptions import ...`) is not present under
`src/`; the spec (§4.2, §7) names the typed resolution failure
`UnknownBodyError` (the source tests call it `exceptions.SpiceError`). -/
inductive PyErr where
  | sPointNotSet
  | missingParameter (msg : String)
  | notImplemented (msg : String)
  | keyError (key : String)
  | typeError
  | attributeError (name : String)
  | unknownBody (name : String)
  deriving DecidableEq, Repr

/-- `IllumAngles`: phase / solar incidence / emission, stored in radians. -/
structure IllumAngles where
  phase : ℝ
  solar : ℝ
  emission : ℝ

/-- `IllumAngles.__init__(phase, solar, emission)`: arguments are degrees,
stored as `(x * u.deg).to(u.radian)`. -/
def IllumAngles.ofDegrees (phase solar emission : ℝ) : IllumAngles :=
  ⟨deg2rad phase, deg2rad solar, deg2rad emission⟩

/-- `IllumAngles.fromtuple(args)`: `newargs = np.degrees(args)` then the
degree constructor. -/
def IllumAngles.fromtuple (args : ℝ × ℝ × ℝ) : IllumAngles :=
  IllumAngles.ofDegrees (rad2deg args.1) (rad2deg args.2.1) (rad2deg args.2.2)

/-- `IllumAngles.dphase`: degree version of `self.phase`. -/
def IllumAngles.dphase (ia : IllumAngles) : ℝ := rad2deg ia.phase

/-- `IllumAngles.dsolar`: degree version of the solar incidence angle. -/
def IllumAngles.dsolar (ia : IllumAngles) : ℝ := rad2deg ia.solar

/-- `IllumAngles.demission`: degree version of the emission angle. -/
def IllumAngles.demission (ia : IllumAngles) : ℝ := rad2deg ia.emission

/-- `SurfaceCoords`: longitude / latitude stored in radians, radius in km. -/
structure SurfaceCoords where
  lon : ℝ
  lat : ℝ
  radius : ℝ

/-- `SurfaceCoords.__init__(lon, lat, radius)`: lon/lat arguments are
degrees, stored as radians; radius stored as km. -/
def SurfaceCoords.ofDegrees (lon lat radius : ℝ) : SurfaceCoords :=
  ⟨deg2rad lon, deg2rad lat, radius⟩

/-- `SurfaceCoords.fromtuple(args)` with `args = (radius, lon, lat)` in
radians: `cls(radius=args[0], lon=np.degrees(args[1]), lat=np.degrees(args[2]))`. -/
def SurfaceCoords.fromtuple (args : ℝ × ℝ × ℝ) : SurfaceCoords :=
  SurfaceCoords.ofDegrees (rad2deg args.2.1) (rad2deg args.2.2) args.1

/-- `SurfaceCoords.dlon`: `self.lon.to(u.deg)` (a plain unit conversion). -/
def SurfaceCoords.dlon (sc : SurfaceCoords) : ℝ := rad2deg sc.lon

/-- `SurfaceCoords.dlat`: `self.lat.to(u.deg)`. -/
def SurfaceCoords.dlat (sc : SurfaceCoords) : ℝ := rad2deg sc.lat

/-- `make_axis_rotation_matrix(direction, angle)`:
`d = direction / norm(direction)`;
`R = dd^T + cos(a) (eye - dd^T) + sin(a) * skew` with
`skew = [[0, d2, -d1], [-d2, 0, d0], [d1, -d0, 0]]`. -/
def make_axis_rotation_matrix (direction : V3) (angle : ℝ) :
    Matrix (Fin 3) (Fin 3) ℝ :=
  let d : V3 := normalize3 direction
  let eye : Matrix (Fin 3) (Fin 3) ℝ := 1
  let ddt : Matrix (Fin 3) (Fin 3) ℝ := Matrix.of fun i j => d i * d j
  let skew : Matrix (Fin 3) (Fin 3) ℝ :=
    Matrix.of ![![0, d 2, -(d 1)], ![-(d 2), 0, d 0], ![d 1, -(d 0), 0]]
  ddt + Real.cos angle • (eye - ddt) + Real.sin angle • skew

/-- The standard cross product of 3-vectors, `d × x`. -/
def cross3 (a b : V3) : V3 :=
  ![a 1 * b 2 - a 2 * b 1, a 2 * b 0 - a 0 * b 2, a 0 * b 1 - a 1 * b 0]

/-- Written from the spec's words (claim C5): the standard skew-symmetric
cross-product matrix of `d`, the one satisfying `skew(d) · x = d × x`. -/
def crossProductMatrix (d : V3) : Matrix (Fin 3) (Fin 3) ℝ :=
  Matrix.of ![![0, -(d 2), d 1], ![d 2, 0, -(d 0)], ![-(d 1), d 0, 0]]

/-- Written from the spec's words (claim C5): the claimed rotation matrix
`R = dd^T + cos(a)(I - dd^T) + sin(a)·skew(d)` with the standard
cross-product matrix as `skew`. -/
def specRotationMatrix (direction : V3) (angle : ℝ) :
    Matrix (Fin 3) (Fin 3) ℝ :=
  let d : V3 := normalize3 direction
  let ddt : Matrix (Fin 3) (Fin 3) ℝ := Matrix.of fun i j => d i * d j
  ddt + Real.cos angle • (1 - ddt) + Real.sin angle • crossProductMatrix d

/-- A body argument as passed around by `Spicer.srfrec`: either a SPICE body
name string or a numeric body id. -/
inductive BodyArg where
  | name (n : String)
  | id (i : Int)
  deriving DecidableEq, Repr

/-- Python `str(body)` for a `BodyArg`. -/
def BodyArg.str : BodyArg → String
  | .name n => n
  | .id i => toString i

/-- Python `str.isdigit()`: nonempty and all characters are digits. -/
def pyIsDigit (s : String) : Bool := s.data ≠ [] && s.data.all Char.isDigit

/-- Python `str.upper()`: uppercase every character. -/
def pyUpper (s : String) : String := String.mk (s.data.map Char.toUpper)

/-- Python `str.lower()`: lowercase every character. -/
def pyLower (s : String) : String := String.mk (s.data.map Char.toLower)

/-- The Ephemeris Provider: one abstract field per `spiceypy` routine the
engine calls, with the argument shapes the source passes (in particular
`self.target`, an `Option String`, is handed over as-is where the source
passes it). -/
structure Provider where
  /-- `datetime.isoformat` of the engine's time value (`Spicer.utc`). -/
  isoformat : ℝ → String
  /-- `spice.utc2et(utc)`. -/
  utc2et : String → ℝ
  /-- `spice.bodn2c(name)`: `none` means the provider reports the name
  unrecognized (spiceypy raises a typed error in that case). -/
  bodn2c : String → Option Int
  /-- `spice.bodvrd(target, "RADII", 3)`, the radii triple. -/
  bodvrd : Option String → ℝ × ℝ × ℝ
  /-- `spice.spkpos(target, et, ref_frame, corr, body)`. -/
  spkpos : String → ℝ → String → String → String → V3 × ℝ
  /-- `spice.srfrec(body, lon, lat)`. -/
  srfrec : BodyArg → ℝ → ℝ → V3
  /-- `spice.surfnm(a, b, c, point)`. -/
  surfnm : ℝ → ℝ → ℝ → V3 → V3
  /-- `spice.ilumin(method, target, et, ref_frame, corr, obs, spoint)`
  returning `(trgepoch, srfvec, phase, solar, emission)`. -/
  ilumin : String → Option String → ℝ → String → String → String → V3 →
    ℝ × V3 × ℝ × ℝ × ℝ
  /-- `spice.reclat(point)` returning `(radius, lon, lat)`. -/
  reclat : V3 → ℝ × ℝ × ℝ
  /-- `spice.lspcn(target, et, corr)`. -/
  lspcn : Option String → ℝ → String → ℝ
  /-- `spice.vsep(v1, v2)`: the separation angle of two vectors. -/
  vsep : V3 → V3 → ℝ
  /-- `spice.vsub(v1, v2)`. -/
  vsub : V3 → V3 → V3
  /-- `spice.vcrss(v1, v2)`. -/
  vcrss : V3 → V3 → V3
  /-- `spice.vnorm(v)`. -/
  vnorm : V3 → ℝ

/-- The mutable state of a `Spicer` instance (the spec's BodyState).
`spoint : Option V3` models the conditionally-assigned `self.spoint`
attribute: `none` = never assigned (attribute access raises). -/
structure Spicer where
  body : String
  ref_frame : String
  target : Option String
  corr : String
  time : ℝ
  tilt : ℝ
  aspect : ℝ
  tau : ℝ
  spoint_set : Bool
  spoint : Option V3
  obs : Option String

/-- `Spicer.__init__(body, time, tilt, aspect, tau)`. The class attribute
`target = None` and (for the base class) no observer. -/
def Spicer.init (body : String) (time tilt aspect tau : ℝ) : Spicer where
  body := body
  ref_frame := "IAU_" ++ pyUpper body
  target := none
  corr := "none"
  time := time
  tilt := tilt
  aspect := aspect
  tau := tau
  spoint_set := false
  spoint := none
  obs := none

/-- The `body` property setter: sets `_body` and resets
`ref_frame = "IAU_" + str(value).upper()`. -/
def Spicer.setBody (s : Spicer) (value : String) : Spicer :=
  { s with body := value, ref_frame := "IAU_" ++ pyUpper value }

/-- Plain attribute assignment `s.target = value` (`target` is an ordinary
attribute with no setter logic). -/
def Spicer.setTarget (s : Spicer) (value : String) : Spicer :=
  { s with target := some value }

/-- The `ref_frame` property setter: plain store. -/
def Spicer.setRefFrame (s : Spicer) (value : String) : Spicer :=
  { s with ref_frame := value }

/-- Access of the conditionally-assigned `self.spoint` attribute. -/
def Spicer.getSpoint (s : Spicer) : Except PyErr V3 :=
  match s.spoint with
  | some p => .ok p
  | none => .error (.attributeError "spoint")

/-- `Spicer.utc`: `self.time.isoformat()`. -/
def Spicer.utc (pr : Provider) (s : Spicer) : String := pr.isoformat s.time

/-- `Spicer.et`: `spice.utc2et(self.utc)`. -/
def Spicer.et (pr : Provider) (s : Spicer) : ℝ := pr.utc2et (s.utc pr)

/-- A call `spice.bodn2c(x)` where `x` is whatever Python value is at hand:
a string resolves via the provider (raising the typed error on an
unrecognized name), any non-string argument raises a TypeError inside
spiceypy's argument conversion. -/
def callBodn2c (pr : Provider) : Option BodyArg → Except PyErr Int
  | some (.name n) =>
    match pr.bodn2c n with
    | some code => .ok code
    | none => .error (.unknownBody n)
  | some (.id _) => .error .typeError
  | none => .error .typeError

/-- `Spicer.target_id`: `res = spice.bodn2c(self.target); return res` —
the provider failure is propagated, never caught. -/
def Spicer.target_id (pr : Provider) (s : Spicer) : Except PyErr Int :=
  callBodn2c pr (s.target.map BodyArg.name)

/-- `Spicer.radii`: `spice.bodvrd(self.target, "RADII", 3)`; passing
`None` as the body name raises inside spiceypy. -/
def Spicer.radii (pr : Provider) (s : Spicer) : Except PyErr (ℝ × ℝ × ℝ) :=
  match s.target with
  | none => .error .typeError
  | some _ => .ok (pr.bodvrd s.target)

/-- `Spicer.body_to_object(target)`: `spice.spkpos(target, self.et,
self.ref_frame, self.corr, self.body)`. -/
def Spicer.body_to_object (pr : Provider) (s : Spicer) (target : String) :
    V3 × ℝ :=
  pr.spkpos target (s.et pr) s.ref_frame s.corr s.body

/-- `Spicer.center_to_sun`: position component of `body_to_object("SUN")`. -/
def Spicer.center_to_sun (pr : Provider) (s : Spicer) : V3 :=
  (s.body_to_object pr "SUN").1

/-- `Spicer.solar_constant`: `L_sun / (2 * tau * dist ** 2)` (with
`tau = math.tau = 2π`, so the denominator is `4π·dist²`), the astropy
`.to(W/m²)` conversion supplying the km→m factor 1000 on the distance. -/
def Spicer.solar_constant (pr : Provider) (s : Spicer) : ℝ :=
  L_sun / (2 * mathTau * (1000 * pr.vnorm (s.center_to_sun pr)) ^ 2)

/-- `Spicer.north_pole`: `(0, 0, self.radii.c)`. -/
def Spicer.north_pole (pr : Provider) (s : Spicer) : Except PyErr V3 :=
  (s.radii pr).bind fun r => .ok ![0, 0, r.2.2]

/-- `Spicer.srfrec(surfcoord, body=None)`: default the body to
`self.target_id`; if `str(body).isdigit()` is false, resolve the name with
`spice.bodn2c`; finally `spice.srfrec(body, lon, lat)`. -/
def Spicer.srfrec (pr : Provider) (s : Spicer) (surfcoord : SurfaceCoords)
    (body? : Option BodyArg) : Except PyErr V3 :=
  (match body? with
   | none => (s.target_id pr).map BodyArg.id
   | some x => (.ok x : Except PyErr BodyArg)).bind fun b =>
  (if pyIsDigit b.str then (.ok b : Except PyErr BodyArg)
   else (callBodn2c pr (some b)).map BodyArg.id).bind fun code =>
  .ok (pr.srfrec code surfcoord.lon surfcoord.lat)

/-- `Spicer.set_spoint_by(func_str, lon, lat)`. A raised exception carries
the state at the moment of the raise; on the lon/lat path the two fields
`spoint_set` and `spoint` are only assigned after `srfrec` succeeded. -/
def Spicer.set_spoint_by (pr : Provider) (s : Spicer) (func_str : Option String)
    (lon lat : Option ℝ) : Except (PyErr × Spicer) Spicer :=
  match func_str with
  | some f =>
    if f = "subpnt" ∨ f = "sincpt" then
      .error (.notImplemented "not yet implemented.", s)
    else
      .error (.notImplemented "Only \"sincpt\" and \"subpnt\" are supported at this time.", s)
  | none =>
    match lon, lat with
    | some lo, some la =>
      match s.srfrec pr (SurfaceCoords.ofDegrees lo la 0) none with
      | .error e => .error (e, s)
      | .ok spoint => .ok { s with spoint_set := true, spoint := some spoint }
    | _, _ => .error (.missingParameter "both lat and lon need to be given.", s)

/-- `Spicer.l_s`: `np.rad2deg(spice.lspcn(self.target, self.et, self.corr))`. -/
def Spicer.l_s (pr : Provider) (s : Spicer) : ℝ :=
  rad2deg (pr.lspcn s.target (s.et pr) s.corr)

/-- `Spicer.sun_direction`: guard on `spoint_set`, then
`spice.vsub(self.center_to_sun.value, self.spoint)`. -/
def Spicer.sun_direction (pr : Provider) (s : Spicer) : Except PyErr V3 :=
  if !s.spoint_set then .error .sPointNotSet
  else
    s.getSpoint.bind fun p => .ok (pr.vsub (s.center_to_sun pr) p)

/-- `Spicer.snormal`: guard on `spoint_set`, then
`spice.surfnm(a, b, c, self.spoint)` with `(a, b, c) = self.radii`. -/
def Spicer.snormal (pr : Provider) (s : Spicer) : Except PyErr V3 :=
  if !s.spoint_set then .error .sPointNotSet
  else
    (s.radii pr).bind fun r =>
    s.getSpoint.bind fun p => .ok (pr.surfnm r.1 r.2.1 r.2.2 p)

/-- `Spicer.illum_angles`: if `self.obs is not None`, call the provider's
full illumination model (accessing `self.spoint` with no flag check) and
wrap `output[2:]`; else approximate with
`IllumAngles.fromtuple((0, vsep(sun_direction, snormal), 0))`. -/
def Spicer.illum_angles (pr : Provider) (s : Spicer) :
    Except PyErr IllumAngles :=
  match s.obs with
  | some o =>
    s.getSpoint.bind fun p =>
      .ok (IllumAngles.fromtuple
        (pr.ilumin "Ellipsoid" s.target (s.et pr) s.ref_frame s.corr o p).2.2)
  | none =>
    (s.sun_direction pr).bind fun sd =>
    (s.snormal pr).bind fun sn =>
      .ok (IllumAngles.fromtuple (0, pr.vsep sd sn, 0))

/-- `Spicer.coords`: guard on `spoint_set`, then
`SurfaceCoords.fromtuple(spice.reclat(self.spoint))`. -/
def Spicer.coords (pr : Provider) (s : Spicer) : Except PyErr SurfaceCoords :=
  if !s.spoint_set then .error .sPointNotSet
  else
    s.getSpoint.bind fun p => .ok (SurfaceCoords.fromtuple (pr.reclat p))

/-- `Spicer._get_flux(vector)`: compute `diff_angle = vsep(vector,
sun_direction)`; return 0 if `dsolar > 90°` or `degrees(diff_angle) > 90`,
else `solar_constant * cos(diff_angle) * exp(-tau / cos(solar))`.
(`self.illum_angles` is accessed twice in the source; it is a pure
function of the state, so one binding is equivalent.) -/
def Spicer._get_flux (pr : Provider) (s : Spicer) (vector : V3) :
    Except PyErr ℝ :=
  (s.sun_direction pr).bind fun sd =>
    let diff_angle := pr.vsep vector sd
    (s.illum_angles pr).bind fun ia =>
      if 90 < ia.dsolar ∨ 90 < rad2deg diff_angle then .ok 0
      else
        .ok (s.solar_constant pr * Real.cos diff_angle *
          Real.exp (-s.tau / Real.cos ia.solar))

/-- `Spicer.F_flat`: `self._get_flux(self.snormal)`. -/
def Spicer.F_flat (pr : Provider) (s : Spicer) : Except PyErr ℝ :=
  (s.snormal pr).bind fun sn => s._get_flux pr sn

/-- `Spicer.to_north`: guard on `spoint_set`, then
`spice.vsub(self.north_pole, self.spoint)`. -/
def Spicer.to_north (pr : Provider) (s : Spicer) : Except PyErr V3 :=
  if !s.spoint_set then .error .sPointNotSet
  else
    (s.north_pole pr).bind fun np3 =>
    s.getSpoint.bind fun p => .ok (pr.vsub np3 p)

/-- `Spicer.tilted_normal`: guard on `spoint_set`; axis =
`vcrss(to_north, spoint)`; rotate `snormal` by
`make_axis_rotation_matrix(axis, radians(tilt))`. -/
def Spicer.tilted_normal (pr : Provider) (s : Spicer) : Except PyErr V3 :=
  if !s.spoint_set then .error .sPointNotSet
  else
    (s.to_north pr).bind fun tn =>
    s.getSpoint.bind fun p =>
      let axis := pr.vcrss tn p
      let rotmat := make_axis_rotation_matrix axis (deg2rad s.tilt)
      (s.snormal pr).bind fun sn => .ok (rotmat.mulVec sn)

/-- `Spicer.F_tilt`: `self._get_flux(self.tilted_normal)`. -/
def Spicer.F_tilt (pr : Provider) (s : Spicer) : Except PyErr ℝ :=
  (s.tilted_normal pr).bind fun tn => s._get_flux pr tn

/-- `Spicer.tilted_rotated_normal`: rotate `tilted_normal` about `snormal`
by `radians(aspect)`. -/
def Spicer.tilted_rotated_normal (pr : Provider) (s : Spicer) :
    Except PyErr V3 :=
  (s.snormal pr).bind fun sn =>
    let rotmat := make_axis_rotation_matrix sn (deg2rad s.aspect)
    (s.tilted_normal pr).bind fun tn => .ok (rotmat.mulVec tn)

/-- `Spicer.F_aspect`: `self._get_flux(self.tilted_rotated_normal)`. -/
def Spicer.F_aspect (pr : Provider) (s : Spicer) : Except PyErr ℝ :=
  (s.tilted_rotated_normal pr).bind fun trn => s._get_flux pr trn

/-- `Spicer.advance_time_by(secs)`: `self.time += timedelta(seconds=secs)`. -/
def Spicer.advance_time_by (s : Spicer) (secs : ℝ) : Spicer :=
  { s with time := s.time + secs }

/-- A Python value appended to the optional times channel of
`time_series` (datetimes/floats modelled as `ℝ`, `utc` as a string). -/
inductive PyVal where
  | num (x : ℝ)
  | str (st : String)

/-- `getattr(self, flux_name)` for the flux selector of `time_series`:
one of the three flux attributes, anything else is a missing attribute. -/
def getFluxAttr (pr : Provider) (s : Spicer) (name : String) :
    Except PyErr ℝ :=
  if name = "F_flat" then s.F_flat pr
  else if name = "F_tilt" then s.F_tilt pr
  else if name = "F_aspect" then s.F_aspect pr
  else .error (.attributeError name)

/-- `getattr(self, provide_times)` for the times channel of
`time_series`: one of `time`, `utc`, `et`, `l_s`. -/
def getTimeAttr (pr : Provider) (s : Spicer) (name : String) :
    Except PyErr PyVal :=
  if name = "time" then .ok (.num s.time)
  else if name = "utc" then .ok (.str (s.utc pr))
  else if name = "et" then .ok (.num (s.et pr))
  else if name = "l_s" then .ok (.num (s.l_s pr))
  else .error (.attributeError name)

/-- Python truthiness of the `provide_times` argument (`if provide_times:`):
`None` and the empty string are falsy. -/
def truthy : Option String → Bool
  | none => false
  | some st => st ≠ ""

/-- Python `i < no_of_steps` inside `time_series`: comparing an int with
`None` raises a TypeError. -/
def pyLtOpt (i : Int) : Option Int → Except PyErr Bool
  | none => .error .typeError
  | some n => .ok (decide (i < n))

/-- The body of the `while criteria:` loop of `Spicer.time_series`,
recursing on the number of remaining iterations (the loop counter `i`
starts at 0 and is incremented once per pass, so `while i < n` performs
exactly `max(n, 0)` passes). Each pass appends the optional time-channel
value, appends `flux * dt`, and advances the time by `dt`; a raise
propagates with the state as mutated so far. -/
def time_series_loop (pr : Provider) (flux_name : String) (dtv : ℝ)
    (provide_times : Option String) :
    ℕ → Spicer → List PyVal → List ℝ →
      Except (PyErr × Spicer) (List PyVal × List ℝ × Spicer)
  | 0, s, times, energies => .ok (times, energies, s)
  | fuel + 1, s, times, energies =>
    match (if truthy provide_times then
            Except.map (fun v => times ++ [v])
              (getTimeAttr pr s (provide_times.getD ""))
          else .ok times) with
    | .error e => .error (e, s)
    | .ok times1 =>
      match getFluxAttr pr s flux_name with
      | .error e => .error (e, s)
      | .ok fl =>
        time_series_loop pr flux_name dtv provide_times fuel
          (s.advance_time_by dtv) times1 (energies ++ [fl * dtv])

/-- The return value of `time_series`: `(times, energies)` when a times
channel was requested, otherwise the energies alone. -/
def TSOut := (List PyVal × List ℝ) ⊕ List ℝ

/-- The energies component of a `time_series` result. -/
def TSOut.energies : TSOut → List ℝ
  | .inl (_, es) => es
  | .inr es => es

/-- `Spicer.time_series(flux_name, dt, no_of_steps, provide_times)`:
save `self.time`; compute `criteria = i < no_of_steps` (a TypeError when
`no_of_steps` is `None`, before any iteration and before any mutation);
run the while loop; restore `self.time = saved_time`; return the energies,
paired with the times when `provide_times` is truthy. -/
def Spicer.time_series (pr : Provider) (s : Spicer) (flux_name : String)
    (dtv : ℝ) (no_of_steps : Option Int) (provide_times : Option String) :
    Except (PyErr × Spicer) (TSOut × Spicer) :=
  let saved_time := s.time
  match no_of_steps with
  | none => .error (.typeError, s)
  | some n =>
    match time_series_loop pr flux_name dtv provide_times n.toNat s [] [] with
    | .error es => .error es
    | .ok (times, energies, s1) =>
      let s2 := { s1 with time := saved_time }
      if truthy provide_times then .ok (.inl (times, energies), s2)
      else .ok (.inr energies, s2)

/-- `MarsSpicer.location_coords`: the named-location table. -/
def location_coords : List (String × V3) :=
  [("inca", ![220.09830399469547, -440.60853011059214, -3340.5081261541495])]

/-- `MarsSpicer.__init__(time, obs, ...)`: base init with the fixed class
target `"MARS"` as the body, then store the observer. -/
def MarsSpicer.init (time tilt aspect tau : ℝ) (obs : Option String) : Spicer :=
  { Spicer.init "MARS" time tilt aspect tau with
      target := some "MARS", obs := obs }

/-- `MarsSpicer.goto(loc_string)`: `self.spoint_set = True` is executed
first; the dictionary lookup `self.location_coords[loc_string.lower()]`
then either assigns `self.spoint` or raises a KeyError, leaving the
already-flipped flag behind. -/
def goto (s : Spicer) (loc_string : String) : Except (PyErr × Spicer) Spicer :=
  let s1 := { s with spoint_set := true }
  match location_coords.lookup (pyLower loc_string) with
  | some v => .ok { s1 with spoint := some v }
  | none => .error (.keyError (pyLower loc_string), s1)

/-! ### Concrete fixtures used to evaluate the model on concrete inputs -/

/-- A concrete provider instance: every call returns a fixed simple value. -/
def trivP : Provider where
  isoformat := fun _ => ""
  utc2et := fun _ => 0
  bodn2c := fun n => if n = "MARS" then some 499 else none
  bodvrd := fun _ => (1, 1, 1)
  spkpos := fun _ _ _ _ _ => (fun _ => 0, 0)
  srfrec := fun _ _ _ => fun _ => 0
  surfnm := fun _ _ _ _ => fun _ => 0
  ilumin := fun _ _ _ _ _ _ _ => (0, fun _ => 0, 0, 0, 0)
  reclat := fun _ => (0, 0, 0)
  lspcn := fun _ _ _ => 0
  vsep := fun _ _ => 0
  vsub := fun _ _ => fun _ => 0
  vcrss := fun _ _ => fun _ => 0
  vnorm := fun _ => 1

/-- A freshly constructed engine (no surface point, no observer, no target). -/
def sMarsInit : Spicer := Spicer.init "mars" 0 0 0 0

/-- A fresh engine whose `target` attribute has been assigned `"MARS"`. -/
def sMars : Spicer := { Spicer.init "mars" 0 0 0 0 with target := some "MARS" }

/-- A fresh engine whose `target` attribute has been assigned `"hello"`. -/
def sHello : Spicer :=
  { Spicer.init "mars" 0 0 0 0 with target := some "hello" }

/-- A fresh `MarsSpicer` with observer `"MRO"` (surface point never set). -/
def sObsMro : Spicer := MarsSpicer.init 0 0 0 0 (some "MRO")

/-- A `MarsSpicer` (no observer) whose surface point has been committed. -/
def sPointed : Spicer :=
  { MarsSpicer.init 0 0 0 0 none with
      spoint_set := true, spoint := some (fun _ => 0) }

/-- A `SurfaceCoords` whose stored longitude is negative (−π/2 radians). -/
def scNeg : SurfaceCoords := ⟨-(Real.pi / 2), 0, 0⟩

/-! ### Shared helper lemmas -/

theorem except_ok_bind {α β : Type} (a : α) (f : α → Except PyErr β) :
    (Except.ok a : Except PyErr α).bind f = f a := rfl

theorem except_error_bind {α β : Type} (e : PyErr) (f : α → Except PyErr β) :
    (Except.error e : Except PyErr α).bind f = .error e := rfl

theorem deg2rad_rad2deg (x : ℝ) : deg2rad (rad2deg x) = x := by
  unfold deg2rad rad2deg
  field_simp

/-! ### Claims -/

/-- **C6, counterexample.** The claim says a `SurfaceCoords` with a negative
stored longitude has its degree accessor shifted by +360° into `[0, 360)`.
For the stored longitude −π/2 the accessor returns the plain conversion
(−90), which is negative and differs from the claimed shifted value. -/
theorem dlon_no_normalization_counterexample :
    scNeg.lon < 0 ∧ scNeg.dlon < 0 ∧ scNeg.dlon ≠ rad2deg scNeg.lon + 360 := by
  have hπ := Real.pi_pos
  refine ⟨by simp [scNeg]; linarith, ?_, ?_⟩
  · show rad2deg (-(Real.pi / 2)) < 0
    unfold rad2deg
    apply div_neg_of_neg_of_pos _ hπ
    nlinarith
  · show rad2deg scNeg.lon ≠ rad2deg scNeg.lon + 360
    intro h
    linarith

/-- **C6 (amended).** The longitude degree accessor is the plain conversion
θ·180/π for every stored longitude — negative included, with no +360
normalization — and the latitude accessor likewise; the tuple factory
(radians input) also round-trips to the plain degree value. -/
theorem dlon_plain_conversion_c6 (sc : SurfaceCoords) (r lo la : ℝ) :
    sc.dlon = sc.lon * 180 / Real.pi ∧
    sc.dlat = sc.lat * 180 / Real.pi ∧
    (SurfaceCoords.fromtuple (r, lo, la)).dlon = rad2deg lo := by
  refine ⟨rfl, rfl, ?_⟩
  show rad2deg (deg2rad (rad2deg lo)) = rad2deg lo
  rw [deg2rad_rad2deg]

/-- **C7.** `target_id` resolves the target via the provider: when the
provider reports the name unrecognized the typed `unknownBody` error is
propagated to the caller (never swallowed); otherwise the numeric body id
is returned. -/
theorem target_id_c7 (pr : Provider) (s : Spicer) (t : String)
    (ht : s.target = some t) :
    (pr.bodn2c t = none → s.target_id pr = .error (.unknownBody t)) ∧
    ∀ c : Int, pr.bodn2c t = some c → s.target_id pr = .ok c := by
  constructor
  · intro h
    simp [Spicer.target_id, ht, callBodn2c, h]
  · intro c h
    simp [Spicer.target_id, ht, callBodn2c, h]

/-- **C7, witness.** Concrete resolution success (`"MARS" → 499`) and
concrete typed failure (`"hello"`). -/
theorem target_id_c7_witness :
    sMars.target_id trivP = .ok 499 ∧
    sHello.target_id trivP = .error (.unknownBody "hello") :=
  ⟨(target_id_c7 trivP sMars "MARS" rfl).2 499 rfl,
   (target_id_c7 trivP sHello "hello" rfl).1 rfl⟩

/-- **C8, counterexample.** The claim says assigning the target mutator
resets `ref_frame` to `"IAU_" + uppercase(target)`. Assigning the plain
`target` attribute of a fresh engine (constructed with body `"mars"`, so
`ref_frame = "IAU_MARS"`) to `"pluto"` leaves `ref_frame` at
`"IAU_MARS"`, not `"IAU_PLUTO"`. -/
theorem set_target_ref_frame_counterexample :
    (sMarsInit.setTarget "pluto").ref_frame = "IAU_MARS" ∧
    (sMarsInit.setTarget "pluto").ref_frame ≠ "IAU_" ++ pyUpper "pluto" := by
  constructor
  · rfl
  · decide

/-- **C8 (amended).** Assigning the `body` mutator (the engine's body
identity, which the spec folds into its `target` concept) resets
`ref_frame` to `"IAU_" + uppercase(value)`; assigning the separate plain
`target` attribute leaves `ref_frame` unchanged; and `ref_frame` remains
independently overridable afterwards. -/
theorem body_target_ref_frame_c8 (s : Spicer) (v f : String) :
    (s.setBody v).ref_frame = "IAU_" ++ pyUpper v ∧
    (s.setTarget v).ref_frame = s.ref_frame ∧
    ((s.setTarget v).setRefFrame f).ref_frame = f :=
  ⟨rfl, rfl, rfl⟩

/-- **C10.** Calling `time_series` with `no_of_steps` left at its default
`None` fails with a TypeError from the unguarded comparison `i <
no_of_steps` before any iteration; the state (its `time` included) is
unchanged in the propagated error. -/
theorem time_series_none_steps_c10 (pr : Provider) (s : Spicer)
    (flux_name : String) (dtv : ℝ) (provide_times : Option String) :
    s.time_series pr flux_name dtv none provide_times =
      .error (.typeError, s) := rfl

/-- **C1, counterexample.** The claim says every surface-point-dependent
accessor — `illum_angles` in the observer-set branch included — fails with
the surface-point-not-set error while the flag is false. On a fresh
`MarsSpicer` with observer `"MRO"` (flag false, `spoint` never assigned),
`illum_angles` takes the observer branch, which performs no flag check: it
fails with an attribute error on the missing `spoint`, not with
`sPointNotSet`. -/
theorem illum_angles_observer_counterexample :
    sObsMro.spoint_set = false ∧
    sObsMro.illum_angles trivP = .error (.attributeError "spoint") ∧
    ¬ sObsMro.illum_angles trivP = .error .sPointNotSet := by
  have h : sObsMro.illum_angles trivP = .error (.attributeError "spoint") := rfl
  refine ⟨rfl, h, ?_⟩
  rw [h]
  simp

/-- **C1 (amended).** While `spoint_set` is false, `sun_direction`,
`snormal`, `coords`, and the observer-unset branch of `illum_angles` fail
with `sPointNotSet`; the observer-set branch of `illum_angles` performs no
flag check — with no `spoint` attribute it fails with an attribute error
instead, and with a (stale) `spoint` value present it computes a result. -/
theorem spoint_guard_c1 (pr : Provider) (s : Spicer)
    (h : s.spoint_set = false) :
    s.sun_direction pr = .error .sPointNotSet ∧
    s.snormal pr = .error .sPointNotSet ∧
    s.coords pr = .error .sPointNotSet ∧
    (s.obs = none → s.illum_angles pr = .error .sPointNotSet) ∧
    (∀ o, s.obs = some o → s.spoint = none →
      s.illum_angles pr = .error (.attributeError "spoint")) ∧
    (∀ o p, s.obs = some o → s.spoint = some p →
      ∃ ia, s.illum_angles pr = .ok ia) := by
  have hsd : s.sun_direction pr = .error .sPointNotSet := by
    simp [Spicer.sun_direction, h]
  have hsn : s.snormal pr = .error .sPointNotSet := by
    simp [Spicer.snormal, h]
  refine ⟨hsd, hsn, ?_, ?_, ?_, ?_⟩
  · simp [Spicer.coords, h]
  · intro hobs
    simp [Spicer.illum_angles, hobs, hsd, except_error_bind]
  · intro o hobs hsp
    simp [Spicer.illum_angles, hobs, Spicer.getSpoint, hsp, except_error_bind]
  · intro o p hobs hsp
    refine ⟨IllumAngles.fromtuple
      (pr.ilumin "Ellipsoid" s.target (s.et pr) s.ref_frame s.corr o p).2.2, ?_⟩
    simp [Spicer.illum_angles, hobs, Spicer.getSpoint, hsp, except_ok_bind]

/-- **C1 (amended), witness.** On a fresh engine (flag false, no observer)
all four accessors fail with the surface-point-not-set error. -/
theorem spoint_guard_c1_witness :
    sMarsInit.sun_direction trivP = .error .sPointNotSet ∧
    sMarsInit.snormal trivP = .error .sPointNotSet ∧
    sMarsInit.coords trivP = .error .sPointNotSet ∧
    sMarsInit.illum_angles trivP = .error .sPointNotSet := by
  have h := spoint_guard_c1 trivP sMarsInit rfl
  exact ⟨h.1, h.2.1, h.2.2.1, h.2.2.2.1 rfl⟩

/-- **C2.** `set_spoint_by` with `func_str` unset: if `lon` or `lat` is
missing it fails with `missingParameter` and the state in the propagated
error is the unchanged input state; if both are given (and the lon/lat →
rectangular conversion succeeds) it commits the converted point to
`spoint` and sets `spoint_set`, both in the same single returned state. -/
theorem set_spoint_by_c2 (pr : Provider) (s : Spicer) (lon lat : Option ℝ) :
    ((lon = none ∨ lat = none) →
      s.set_spoint_by pr none lon lat =
        .error (.missingParameter "both lat and lon need to be given.", s)) ∧
    (∀ lo la v, lon = some lo → lat = some la →
      s.srfrec pr (SurfaceCoords.ofDegrees lo la 0) none = .ok v →
      s.set_spoint_by pr none lon lat =
        .ok { s with spoint_set := true, spoint := some v }) := by
  constructor
  · rintro (rfl | rfl)
    · cases lat <;> rfl
    · cases lon <;> rfl
  · rintro lo la v rfl rfl hsr
    simp [Spicer.set_spoint_by, hsr]

/-- **C2, witness.** Concrete missing-parameter failure (lon omitted) and
concrete success committing the converted point. -/
theorem set_spoint_by_c2_witness :
    sMars.set_spoint_by trivP none none (some 0) =
      .error (.missingParameter "both lat and lon need to be given.", sMars) ∧
    sMars.set_spoint_by trivP none (some 0) (some 0) =
      .ok { sMars with spoint_set := true, spoint := some (fun _ => 0) } := by
  constructor
  · exact (set_spoint_by_c2 trivP sMars none (some 0)).1 (Or.inl rfl)
  · exact (set_spoint_by_c2 trivP sMars (some 0) (some 0)).2 0 0
      (fun _ => 0) rfl rfl rfl

/-- **C9.** `goto` with a location name absent from the table flips
`spoint_set` to true before the failing lookup: the propagated KeyError
(which is not the surface-point error) carries a state with
`spoint_set = true` and an uncommitted (unchanged) `spoint`, and on that
state `sun_direction` passes the `spoint_set` guard (it can no longer fail
with `sPointNotSet`). -/
theorem goto_non_atomic_c9 (s : Spicer) (loc : String)
    (h : location_coords.lookup (pyLower loc) = none) :
    goto s loc = .error (.keyError (pyLower loc), { s with spoint_set := true }) ∧
    PyErr.keyError (pyLower loc) ≠ PyErr.sPointNotSet ∧
    ({ s with spoint_set := true } : Spicer).spoint = s.spoint ∧
    ∀ pr : Provider,
      ({ s with spoint_set := true } : Spicer).sun_direction pr ≠
        .error .sPointNotSet := by
  refine ⟨?_, by simp, rfl, ?_⟩
  · simp [goto, h]
  · intro pr hcon
    cases hsp : s.spoint with
    | none =>
      simp [Spicer.sun_direction, Spicer.getSpoint, hsp, except_error_bind]
        at hcon
    | some p =>
      simp [Spicer.sun_direction, Spicer.getSpoint, hsp, except_ok_bind]
        at hcon

/-- **C9, witness.** Concrete failed `goto` on a fresh engine with the
unknown location `"nowhere"`. -/
theorem goto_non_atomic_c9_witness :
    goto sMarsInit "nowhere" =
      .error (.keyError (pyLower "nowhere"),
              { sMarsInit with spoint_set := true }) :=
  (goto_non_atomic_c9 sMarsInit "nowhere" rfl).1

/-- **C3.** When `sun_direction` and `illum_angles` compute, `_get_flux`
returns 0 if the angle between the candidate vector and the sun direction
exceeds 90° or the solar incidence angle exceeds 90°, and otherwise
returns `solar_constant · cos(diff_angle) · exp(−tau / cos(solar))`. -/
theorem get_flux_c3 (pr : Provider) (s : Spicer) (v sd : V3)
    (ia : IllumAngles) (hsd : s.sun_direction pr = .ok sd)
    (hia : s.illum_angles pr = .ok ia) :
    ((90 < ia.dsolar ∨ 90 < rad2deg (pr.vsep v sd)) →
      s._get_flux pr v = .ok 0) ∧
    (¬(90 < ia.dsolar ∨ 90 < rad2deg (pr.vsep v sd)) →
      s._get_flux pr v =
        .ok (s.solar_constant pr * Real.cos (pr.vsep v sd) *
          Real.exp (-s.tau / Real.cos ia.solar))) := by
  constructor
  · intro h
    simp only [Spicer._get_flux, hsd, hia, except_ok_bind]
    rw [if_pos h]
  · intro h
    simp only [Spicer._get_flux, hsd, hia, except_ok_bind]
    rw [if_neg h]

/-- **C3, witness.** On a concrete state (with its surface point set, no
observer, `tau = 0`) and a concrete provider where the separation angle is
0 and the solar incidence is 0°, neither condition exceeds 90°, so the
flux is the attenuated-cosine value. -/
theorem get_flux_c3_witness :
    sPointed._get_flux trivP (fun _ => 0) =
      .ok (sPointed.solar_constant trivP *
        Real.cos (trivP.vsep (fun _ => 0) (fun _ => 0)) *
        Real.exp (-sPointed.tau /
          Real.cos (IllumAngles.fromtuple (0, 0, 0)).solar)) := by
  refine (get_flux_c3 trivP sPointed (fun _ => 0) (fun _ => 0)
    (IllumAngles.fromtuple (0, 0, 0)) rfl rfl).2 ?_
  have hds : (IllumAngles.fromtuple (0, 0, 0)).dsolar = 0 := by
    simp [IllumAngles.fromtuple, IllumAngles.ofDegrees, IllumAngles.dsolar,
      rad2deg, deg2rad]
  have hvs : rad2deg (trivP.vsep (fun _ => 0) (fun _ => 0)) = 0 := by
    show rad2deg 0 = 0
    simp [rad2deg]
  rw [hds, hvs]
  norm_num

theorem norm3_normalize3 (v : V3) (h : norm3 v ≠ 0) :
    norm3 (normalize3 v) = 1 := by
  have hS : (0:ℝ) ≤ v 0 ^ 2 + v 1 ^ 2 + v 2 ^ 2 := by positivity
  have hn : norm3 v ^ 2 = v 0 ^ 2 + v 1 ^ 2 + v 2 ^ 2 := Real.sq_sqrt hS
  have hS' : v 0 ^ 2 + v 1 ^ 2 + v 2 ^ 2 ≠ 0 := by
    rw [← hn]
    exact pow_ne_zero 2 h
  have hb : norm3 (normalize3 v) =
      Real.sqrt ((v 0 / norm3 v) ^ 2 + (v 1 / norm3 v) ^ 2 +
        (v 2 / norm3 v) ^ 2) := rfl
  have hkey : norm3 (normalize3 v) =
      Real.sqrt ((v 0 ^ 2 + v 1 ^ 2 + v 2 ^ 2) / norm3 v ^ 2) := by
    rw [hb]
    congr 1
    ring
  rw [hkey, hn, div_self hS', Real.sqrt_one]

theorem code_skew_eq_transpose (d : V3) :
    (Matrix.of ![![0, d 2, -(d 1)], ![-(d 2), 0, d 0], ![d 1, -(d 0), 0]] :
      Matrix (Fin 3) (Fin 3) ℝ) = (crossProductMatrix d)ᵀ := by
  ext i j
  fin_cases i <;> fin_cases j <;>
    simp [crossProductMatrix, Matrix.transpose_apply, Matrix.cons_val_zero,
      Matrix.cons_val_one, Matrix.head_cons, Matrix.cons_val_two,
      Matrix.tail_cons]

theorem norm3_e3 : norm3 ![(0:ℝ), 0, 1] = 1 := by
  simp [norm3, Matrix.cons_val_zero, Matrix.cons_val_one, Matrix.head_cons,
    Matrix.cons_val_two, Matrix.tail_cons, Real.sqrt_one]

theorem normalize3_e3_0 : normalize3 ![(0:ℝ), 0, 1] 0 = 0 := by
  simp [normalize3, norm3_e3, Matrix.cons_val_zero]

theorem normalize3_e3_1 : normalize3 ![(0:ℝ), 0, 1] 1 = 0 := by
  simp [normalize3, norm3_e3, Matrix.cons_val_one, Matrix.head_cons]

theorem normalize3_e3_2 : normalize3 ![(0:ℝ), 0, 1] 2 = 1 := by
  simp [normalize3, norm3_e3, Matrix.cons_val_two, Matrix.tail_cons,
    Matrix.head_cons]

/-- **C5, counterexample.** The claim reads the helper's skew factor as the
standard cross-product matrix (`skew(d)·x = d × x`). For the axis
`(0, 0, 1)` and angle π/2 the matrix the code builds differs from the
claimed one at entry (0, 1): the code has `+d₂ = 1` there, the standard
skew has `−d₂ = −1`. -/
theorem make_axis_rotation_skew_counterexample :
    make_axis_rotation_matrix ![0, 0, 1] (Real.pi / 2) ≠
      specRotationMatrix ![0, 0, 1] (Real.pi / 2) := by
  intro hEq
  have h01 := congrFun (congrFun hEq 0) 1
  simp only [make_axis_rotation_matrix, specRotationMatrix, crossProductMatrix,
    Matrix.add_apply, Matrix.smul_apply, Matrix.sub_apply, Matrix.of_apply,
    Matrix.one_apply, Real.cos_pi_div_two, Real.sin_pi_div_two,
    Matrix.cons_val_zero, Matrix.cons_val_one, Matrix.head_cons,
    normalize3_e3_0, normalize3_e3_1, normalize3_e3_2, smul_eq_mul] at h01
  norm_num at h01

/-- **C5 (amended).** For every axis of nonzero norm, the helper normalizes
the axis to a unit vector `d` and returns
`R = dd^T + cos(a)(I − dd^T) + sin(a)·skew'(d)` where `skew'(d)` is the
transpose of the standard cross-product matrix — equivalently
`skew'(d)·x = x × d = −(d × x)` — not the standard `skew(d)·x = d × x`. -/
theorem make_axis_rotation_matrix_c5 (direction : V3) (angle : ℝ)
    (h : norm3 direction ≠ 0) :
    norm3 (normalize3 direction) = 1 ∧
    (∀ x : V3, Matrix.mulVec (crossProductMatrix (normalize3 direction))ᵀ x =
      cross3 x (normalize3 direction)) ∧
    make_axis_rotation_matrix direction angle =
      (Matrix.of fun i j => normalize3 direction i * normalize3 direction j) +
      Real.cos angle •
        (1 - Matrix.of fun i j => normalize3 direction i * normalize3 direction j) +
      Real.sin angle • (crossProductMatrix (normalize3 direction))ᵀ := by
  refine ⟨norm3_normalize3 direction h, ?_, ?_⟩
  · intro x
    funext i
    fin_cases i <;>
      simp [Matrix.mulVec, Matrix.transpose_apply, crossProductMatrix, cross3,
        Matrix.dotProduct, Fin.sum_univ_three, Matrix.cons_val_zero,
        Matrix.cons_val_one, Matrix.head_cons, Matrix.cons_val_two,
        Matrix.tail_cons] <;> ring
  · simp only [make_axis_rotation_matrix]
    rw [code_skew_eq_transpose]

/-- **C5 (amended), witness.** The concrete axis `(0, 0, 1)` has nonzero
norm and normalizes to a unit vector. -/
theorem make_axis_rotation_matrix_c5_witness :
    norm3 (normalize3 ![(0:ℝ), 0, 1]) = 1 :=
  (make_axis_rotation_matrix_c5 ![0, 0, 1] (Real.pi / 2)
    (by rw [norm3_e3]; norm_num)).1

theorem spicer_time_zero_steps (s : Spicer) (dtv : ℝ) :
    ({ s with time := s.time + (0:ℕ) * dtv } : Spicer) = s := by
  have h : s.time + (0:ℕ) * dtv = s.time := by push_cast; ring
  rw [h]

theorem time_series_loop_spec (pr : Provider) (fn : String) (dtv : ℝ) :
    ∀ (m : ℕ) (s : Spicer) (ts : List PyVal) (es : List ℝ) (F : ℕ → ℝ),
      (∀ j : ℕ, j < m →
        getFluxAttr pr { s with time := s.time + j * dtv } fn = .ok (F j)) →
      time_series_loop pr fn dtv none m s ts es =
        .ok (ts, es ++ (List.range m).map (fun j => F j * dtv),
          { s with time := s.time + m * dtv }) := by
  intro m
  induction m with
  | zero =>
    intro s ts es F _
    rw [spicer_time_zero_steps]
    simp [time_series_loop]
  | succ k ih =>
    intro s ts es F hF
    have h0 : getFluxAttr pr s fn = .ok (F 0) := by
      rw [← spicer_time_zero_steps s dtv]
      exact hF 0 (Nat.succ_pos k)
    have hF' : ∀ j : ℕ, j < k →
        getFluxAttr pr { s.advance_time_by dtv with
          time := (s.advance_time_by dtv).time + j * dtv } fn =
          .ok (F (j + 1)) := by
      intro j hj
      have harith : s.time + dtv + (j:ℕ) * dtv = s.time + ((j:ℕ) + 1) * dtv := by
        ring
      have heq : ({ s.advance_time_by dtv with
          time := (s.advance_time_by dtv).time + j * dtv } : Spicer) =
          { s with time := s.time + ((j + 1 : ℕ) : ℝ) * dtv } := by
        show ({ s with time := s.time + dtv + j * dtv } : Spicer) = _
        rw [harith]
        push_cast
        rfl
      rw [heq]
      exact hF (j + 1) (by omega)
    have hrec := ih (s.advance_time_by dtv) ts (es ++ [F 0 * dtv])
      (fun j => F (j + 1)) hF'
    have hstate : ({ s.advance_time_by dtv with
        time := (s.advance_time_by dtv).time + k * dtv } : Spicer) =
        { s with time := s.time + ((k + 1 : ℕ) : ℝ) * dtv } := by
      show ({ s with time := s.time + dtv + k * dtv } : Spicer) = _
      have harith : s.time + dtv + (k:ℕ) * dtv =
          s.time + ((k:ℕ) + 1) * dtv := by
        ring
      rw [harith]
      push_cast
      rfl
    simp only [time_series_loop, truthy, Bool.false_eq_true, if_false]
    rw [h0]
    simp only []
    rw [hrec, hstate]
    simp [List.range_succ_eq_map, List.map_map, Function.comp,
      List.append_assoc, List.singleton_append]

/-- **C4.** For every step count `n ≥ 0` (including 0), a `time_series`
call whose flux samples all compute returns, with the state fully
restored (its `time` equal to the pre-call value), and the `n` returned
entries are the selected flux sampled at the successive times
`t0, t0+dt, ...`, each multiplied by `dt`. -/
theorem time_series_c4 (pr : Provider) (s : Spicer) (fn : String) (dtv : ℝ)
    (n : Int) (_hn : 0 ≤ n) (F : ℕ → ℝ)
    (hF : ∀ j : ℕ, j < n.toNat →
      getFluxAttr pr { s with time := s.time + j * dtv } fn = .ok (F j)) :
    s.time_series pr fn dtv (some n) none =
      .ok (.inr ((List.range n.toNat).map fun j => F j * dtv), s) := by
  have hloop := time_series_loop_spec pr fn dtv n.toNat s [] [] F hF
  simp only [Spicer.time_series]
  rw [hloop]
  simp only [truthy, Bool.false_eq_true, if_false, List.nil_append]

/-- **C4, witness.** The `n = 0` case on a concrete fresh engine: the call
returns an empty series and the returned state is the input state, time
included. -/
theorem time_series_c4_witness :
    sMarsInit.time_series trivP "F_flat" 1 (some 0) none =
      .ok (.inr [], sMarsInit) := by
  have h := time_series_c4 trivP sMarsInit "F_flat" 1 0 (by norm_num)
    (fun _ => 0) (by intro j hj; simp at hj)
  simpa using h

end







